import Mathlib

/-!
Verification development for the IntervueAi behavioral-signal and
confidence-scoring pipeline.  The Python sources are embedded shallowly over
the rationals: every score computation in the code is exact arithmetic on
IEEE floats whose operands are small decimals, and we model it with exact
rational arithmetic.  External collaborators (librosa feature extraction,
OpenCV detectors, numpy standard deviations of float arrays) enter as
explicit inputs; every branch, clamp and formula of the repository's own
code is reproduced from the source.
-/

namespace IntervueAi

/-- Arithmetic mean of a list of rationals, as computed by a numpy mean call
(sum divided by length); every call site in the embedded code guards against
the empty list before dividing. -/
def listMean (xs : List ℚ) : ℚ := xs.sum / (xs.length : ℚ)

/-- The voice-metrics dictionary a response carries (fields read by the
scoring engine: `stability_score` and `clarity_score`). -/
structure VoiceMetrics where
  stability_score : ℚ
  clarity_score : ℚ
deriving Repr, DecidableEq

/-- The `metrics` sub-dictionary of a video/emotion analysis result, with the
fields the scoring engine reads. -/
structure VideoMetrics where
  eye_contact_percentage : ℚ
  confidence_score : ℚ
  emotion_consistency : ℚ
  nervousness_score : ℚ
  stress_score : ℚ
deriving Repr, DecidableEq

/-- The `emotion_analysis` dictionary of a response; `metrics = none` models a
missing (or empty, hence falsy) `metrics` entry. -/
structure EmotionAnalysis where
  metrics : Option VideoMetrics
deriving Repr, DecidableEq

/-- The `transcript` dictionary of a response: total word count, the list of
detected filler words, and the precomputed `filler_word_count` field (the
scoring engine reads the list, `main.py` reads the count field). -/
structure Transcript where
  word_count : ℕ
  filler_words : List String
  filler_word_count : ℕ
deriving Repr, DecidableEq

/-- One response record handed to the scorers.  A `none` field models a
missing or empty dictionary for that modality (both are falsy in the
source's `if not d` / `d.get(key, {})` idiom). -/
structure Response where
  voice_metrics : Option VoiceMetrics
  emotion_analysis : Option EmotionAnalysis
  transcript : Option Transcript
deriving Repr, DecidableEq

/-- One component entry of the scoring engine's result dictionary. -/
structure ComponentScore where
  score : ℚ
  weight : ℚ
  weighted_contribution : ℚ
deriving Repr, DecidableEq

/-- The `score_interpretation` dictionary. -/
structure Interpretation where
  level : String
  description : String
  score_range : String
deriving Repr, DecidableEq

/-- The full result dictionary of `ConfidenceScorer.calculate_score`. -/
structure ConfidenceScore where
  overall_score : ℚ
  voice_stability : ComponentScore
  eye_contact : ComponentScore
  emotion_consistency : ComponentScore
  filler_word_frequency : ComponentScore
  response_count : ℕ
  score_interpretation : Interpretation
deriving Repr, DecidableEq

/-- Scoring weights set in `ConfidenceScorer.__init__` (0.40). -/
def weight_voice_stability : ℚ := 40 / 100

/-- Scoring weight for eye contact set in `ConfidenceScorer.__init__` (0.25). -/
def weight_eye_contact : ℚ := 25 / 100

/-- Scoring weight for emotion consistency set in `ConfidenceScorer.__init__` (0.20). -/
def weight_emotion_consistency : ℚ := 20 / 100

/-- Scoring weight for filler-word frequency set in `ConfidenceScorer.__init__` (0.15). -/
def weight_filler_word_frequency : ℚ := 15 / 100

/-- `ConfidenceScorer._calculate_voice_stability_score`: 0 for a missing/empty
voice-metrics dictionary, otherwise `min(100, max(0, stability*0.7 + clarity*0.3))`. -/
def calculate_voice_stability_score (voice_metrics : Option VoiceMetrics) : ℚ :=
  match voice_metrics with
  | none => 0
  | some v => min 100 (max 0 (v.stability_score * (7 / 10) + v.clarity_score * (3 / 10)))

/-- `ConfidenceScorer._calculate_eye_contact_score`: 0 for a missing/empty
emotion-analysis dictionary, otherwise the clamped `eye_contact_percentage`
read from `metrics` (default 0 when `metrics` is absent). -/
def calculate_eye_contact_score (emotion_analysis : Option EmotionAnalysis) : ℚ :=
  match emotion_analysis with
  | none => 0
  | some e =>
      min 100 (max 0 ((e.metrics.map VideoMetrics.eye_contact_percentage).getD 0))

/-- `ConfidenceScorer._calculate_emotion_consistency_score`:
`max(0, min(100, (confidence + consistency) - (nervousness + stress) * 0.5))`,
each metric defaulting to 0 when absent; 0 for a missing emotion analysis. -/
def calculate_emotion_consistency_score (emotion_analysis : Option EmotionAnalysis) : ℚ :=
  match emotion_analysis with
  | none => 0
  | some e =>
      let confidence := (e.metrics.map VideoMetrics.confidence_score).getD 0
      let consistency := (e.metrics.map VideoMetrics.emotion_consistency).getD 0
      let nervousness := (e.metrics.map VideoMetrics.nervousness_score).getD 0
      let stress := (e.metrics.map VideoMetrics.stress_score).getD 0
      max 0 (min 100 ((confidence + consistency) - (nervousness + stress) * (1 / 2)))

/-- `ConfidenceScorer._calculate_filler_word_score`: 100 for a missing
transcript or a zero word count, otherwise
`max(0, 100 - (len(filler_words)/word_count * 100) * 5)`. -/
def calculate_filler_word_score (transcript : Option Transcript) : ℚ :=
  match transcript with
  | none => 100
  | some t =>
      if t.word_count = 0 then 100
      else max 0 (100 - ((t.filler_words.length : ℚ) / (t.word_count : ℚ) * 100) * 5)

/-- `ConfidenceScorer._get_score_range`. -/
def get_score_range (score : ℚ) : String :=
  if score ≥ 85 then "85-100"
  else if score ≥ 70 then "70-84"
  else if score ≥ 55 then "55-69"
  else if score ≥ 40 then "40-54"
  else "0-39"

/-- `ConfidenceScorer._interpret_score`: level and description by band, plus
the displayed score range. -/
def interpret_score (score : ℚ) : Interpretation :=
  if score ≥ 85 then
    ⟨"Excellent", "Outstanding confidence and communication skills", get_score_range score⟩
  else if score ≥ 70 then
    ⟨"Good", "Strong confidence with minor areas for improvement", get_score_range score⟩
  else if score ≥ 55 then
    ⟨"Average", "Moderate confidence, several areas for development", get_score_range score⟩
  else if score ≥ 40 then
    ⟨"Below Average", "Low confidence, significant improvement needed", get_score_range score⟩
  else
    ⟨"Poor", "Very low confidence, major development required", get_score_range score⟩

/-- `ConfidenceScorer._empty_score_result`. -/
def empty_score_result : ConfidenceScore :=
  { overall_score := 0
    voice_stability := ⟨0, 40 / 100, 0⟩
    eye_contact := ⟨0, 25 / 100, 0⟩
    emotion_consistency := ⟨0, 20 / 100, 0⟩
    filler_word_frequency := ⟨0, 15 / 100, 0⟩
    response_count := 0
    score_interpretation := ⟨"No Data", "No responses to analyze", "0"⟩ }

/-- `ConfidenceScorer.calculate_score`: per-response component scores are
collected for every response, averaged, and combined with the fixed weights;
an empty response list short-circuits to `empty_score_result`. -/
def calculate_score (responses : List Response) : ConfidenceScore :=
  if responses.isEmpty then empty_score_result
  else
    let voice_scores := responses.map (fun r => calculate_voice_stability_score r.voice_metrics)
    let eye_contact_scores := responses.map (fun r => calculate_eye_contact_score r.emotion_analysis)
    let emotion_scores := responses.map (fun r => calculate_emotion_consistency_score r.emotion_analysis)
    let filler_word_scores := responses.map (fun r => calculate_filler_word_score r.transcript)
    let avg_voice_stability := if voice_scores.isEmpty then 0 else listMean voice_scores
    let avg_eye_contact := if eye_contact_scores.isEmpty then 0 else listMean eye_contact_scores
    let avg_emotion_consistency := if emotion_scores.isEmpty then 0 else listMean emotion_scores
    let avg_filler_word := if filler_word_scores.isEmpty then 0 else listMean filler_word_scores
    let overall_score :=
      avg_voice_stability * weight_voice_stability +
      avg_eye_contact * weight_eye_contact +
      avg_emotion_consistency * weight_emotion_consistency +
      avg_filler_word * weight_filler_word_frequency
    { overall_score := overall_score
      voice_stability :=
        ⟨avg_voice_stability, weight_voice_stability, avg_voice_stability * weight_voice_stability⟩
      eye_contact :=
        ⟨avg_eye_contact, weight_eye_contact, avg_eye_contact * weight_eye_contact⟩
      emotion_consistency :=
        ⟨avg_emotion_consistency, weight_emotion_consistency,
          avg_emotion_consistency * weight_emotion_consistency⟩
      filler_word_frequency :=
        ⟨avg_filler_word, weight_filler_word_frequency,
          avg_filler_word * weight_filler_word_frequency⟩
      response_count := responses.length
      score_interpretation := interpret_score overall_score }

/-- One component entry of `main.py calculate_real_confidence_score`'s
result (score and weight only). -/
structure RealComponentScore where
  score : ℚ
  weight : ℚ
deriving Repr, DecidableEq

/-- The `component_scores` dictionary of `calculate_real_confidence_score`. -/
structure RealComponents where
  voice_stability : RealComponentScore
  eye_contact : RealComponentScore
  speech_quality : RealComponentScore
deriving Repr, DecidableEq

/-- The result of `calculate_real_confidence_score`; on the empty-input path
the Python function returns an empty `component_scores` dictionary (modelled
as `none`) and no `response_count` key (modelled as 0). -/
structure RealConfidenceScore where
  overall_score : ℚ
  component_scores : Option RealComponents
  response_count : ℕ
deriving Repr, DecidableEq

/-- The speech-quality score computed inline in
`main.py calculate_real_confidence_score` (lines 418-426): for a positive
word count, `max(0, 100 - (filler_word_count/word_count * 100) * 5)`;
for a zero word count the source sets the score to 0 ("No speech detected"). -/
def real_speech_score (t : Transcript) : ℚ :=
  if 0 < t.word_count then
    max 0 (100 - ((t.filler_word_count : ℚ) / (t.word_count : ℚ) * 100) * 5)
  else 0

/-- `main.py calculate_real_confidence_score`: component values are collected
only from responses that carry the modality (a missing `voice_metrics`,
`emotion_analysis.metrics` or `transcript` dictionary is skipped), averaged
with an empty-list guard, and combined with weights 0.40 voice, 0.35 eye
contact, 0.25 speech quality. -/
def calculate_real_confidence_score (responses : List Response) : RealConfidenceScore :=
  if responses.isEmpty then ⟨0, none, 0⟩
  else
    let voice_scores := responses.filterMap
      (fun r => r.voice_metrics.map VoiceMetrics.stability_score)
    let eye_contact_scores := responses.filterMap
      (fun r =>
        match r.emotion_analysis with
        | some e => e.metrics.map VideoMetrics.eye_contact_percentage
        | none => none)
    let speech_scores := responses.filterMap (fun r => r.transcript.map real_speech_score)
    let avg_voice := if voice_scores.isEmpty then 0 else listMean voice_scores
    let avg_eye_contact := if eye_contact_scores.isEmpty then 0 else listMean eye_contact_scores
    let avg_speech := if speech_scores.isEmpty then 0 else listMean speech_scores
    let overall_score :=
      avg_voice * (40 / 100) + avg_eye_contact * (35 / 100) + avg_speech * (25 / 100)
    ⟨overall_score,
      some ⟨⟨avg_voice, 40 / 100⟩, ⟨avg_eye_contact, 35 / 100⟩, ⟨avg_speech, 25 / 100⟩⟩,
      responses.length⟩

/-!
Speech activity and prosody analyzer (`real_audio_analyzer.py`).  Audio is a
list of rational sample amplitudes.  The source classifies a 30 ms frame as
speech when its RMS energy exceeds the 0.01 threshold; since both sides are
nonnegative, `sqrt(meanSquare) > 0.01` is equivalent to
`meanSquare > 0.0001`, which is how the frame test is embedded (exactly, with
no square root).
-/

/-- Frame size used by `RealAudioAnalyzer._detect_voice_activity`:
30 ms at 16 kHz = 480 samples. -/
def frame_size : ℕ := 480

/-- Zero-pad the audio so its length is a whole number of frames, exactly as
`_detect_voice_activity` does (no padding when already a multiple). -/
def pad_audio (audio : List ℚ) : List ℚ :=
  let padding := frame_size - audio.length % frame_size
  if padding ≠ frame_size then audio ++ List.replicate padding 0 else audio

/-- Mean of the squared samples of one frame. -/
def mean_square (f : List ℚ) : ℚ := (f.map (fun x => x * x)).sum / (f.length : ℚ)

/-- The source's `rms_energy > 0.01` speech test for one frame, stated
equivalently on the mean square (threshold squared is 1/10000). -/
def is_speech_frame (f : List ℚ) : Bool := decide ((1 / 10000 : ℚ) < mean_square f)

/-- The `i`-th 480-sample frame of a padded signal. -/
def frame_at (padded : List ℚ) (i : ℕ) : List ℚ :=
  (padded.drop (i * frame_size)).take frame_size

/-- The voice-activity result dictionary. -/
structure VoiceActivityResult where
  total_frames : ℕ
  speech_frames : ℕ
  speech_percentage : ℚ
  silence_percentage : ℚ
deriving Repr, DecidableEq

/-- `RealAudioAnalyzer._detect_voice_activity`: pad, split into 480-sample
frames, count frames whose RMS exceeds the threshold, and report
`speech_percentage = speech_frames/total_frames * 100` (0 when there are no
frames) and `silence_percentage = 100 - speech_percentage`. -/
def detect_voice_activity (audio : List ℚ) : VoiceActivityResult :=
  let padded := pad_audio audio
  let total_frames := padded.length / frame_size
  let speech_frames := (List.range total_frames).countP (fun i => is_speech_frame (frame_at padded i))
  let speech_percentage :=
    if 0 < total_frames then (speech_frames : ℚ) / (total_frames : ℚ) * 100 else 0
  ⟨total_frames, speech_frames, speech_percentage, 100 - speech_percentage⟩

/-- The speech-metrics dictionary produced by
`RealAudioAnalyzer._analyze_speech_patterns`. -/
structure ProsodyResult where
  pitch_mean : ℚ
  pitch_std : ℚ
  energy_mean : ℚ
  energy_std : ℚ
  stability_score : ℚ
deriving Repr, DecidableEq

/-- The per-signal stability formula shared by
`RealAudioAnalyzer._analyze_speech_patterns` (lines 364-365),
`VoiceAnalyzer._analyze_pitch` (line 97) and `VoiceAnalyzer._analyze_energy`
(line 133): `100 - min(100, std/mean * 100)` when the mean is positive,
0 otherwise. -/
def stability_of (mean std : ℚ) : ℚ :=
  if 0 < mean then 100 - min 100 (std / mean * 100) else 0

/-- Pitch and energy statistics of the speech signal.  In the source these
four numbers are numpy means/standard deviations of librosa feature arrays
(piptrack pitches filtered to 50-500 Hz, RMS energies); the feature
extraction is an external collaborator and the resulting statistics enter
the embedding as inputs. -/
structure SpeechFeatureStats where
  pitch_mean : ℚ
  pitch_std : ℚ
  energy_mean : ℚ
  energy_std : ℚ
deriving Repr, DecidableEq

/-- The all-zero speech-metrics dictionary. -/
def zero_prosody : ProsodyResult := ⟨0, 0, 0, 0, 0⟩

/-- `RealAudioAnalyzer._analyze_speech_patterns`: when the voice-activity
speech percentage is below 1.0 the result is all-zero; otherwise the two
per-signal stabilities are computed by `stability_of` and combined as their
plain average `(pitch_stability + energy_stability) / 2` (line 367). -/
def analyze_speech_patterns (voice_activity : VoiceActivityResult)
    (stats : SpeechFeatureStats) : ProsodyResult :=
  if voice_activity.speech_percentage < 1 then zero_prosody
  else
    let pitch_stability := stability_of stats.pitch_mean stats.pitch_std
    let energy_stability := stability_of stats.energy_mean stats.energy_std
    ⟨stats.pitch_mean, stats.pitch_std, stats.energy_mean, stats.energy_std,
      (pitch_stability + energy_stability) / 2⟩

/-- `VoiceAnalyzer._calculate_stability_score` (voice_analysis/audio_analyzer.py
lines 265-272): weighted combination `pitch_stability*0.7 + energy_stability*0.3`. -/
def va_calculate_stability_score (pitch_stability energy_stability : ℚ) : ℚ :=
  pitch_stability * (7 / 10) + energy_stability * (3 / 10)

/-- Decidable test that every frame of the (padded) audio is below the speech
energy threshold, i.e. the audio is all-silent for the VAD. -/
def all_frames_silent (audio : List ℚ) : Bool :=
  let padded := pad_audio audio
  let total_frames := padded.length / frame_size
  (List.range total_frames).all (fun i => ! is_speech_frame (frame_at padded i))

/-!
Visual presence analyzer (`real_video_analyzer.py`).  The OpenCV cascade
detectors are external collaborators: `analyze_frame` is given the detected
face rectangles and the eye count found inside the chosen face, and the
session loop is given the per-frame results.  Position stability and size
consistency involve square roots of pixel distances and are not needed by
the properties below.
-/

/-- The per-frame dictionary produced by `RealVideoAnalyzer._analyze_frame`:
face/eye flags, face center (integer pixel coordinates, `None` without a
face) and bounding-box area. -/
structure FrameData where
  has_face : Bool
  has_eyes : Bool
  face_center : Option (ℕ × ℕ)
  face_size : ℕ
deriving Repr, DecidableEq

/-- A detected face rectangle `(x, y, w, h)`. -/
structure FaceRect where
  x : ℕ
  y : ℕ
  w : ℕ
  h : ℕ
deriving Repr, DecidableEq

/-- Python's `max(faces, key=lambda f: f[2]*f[3])`: first rectangle of
maximal area (a later rectangle replaces the current one only when strictly
larger). -/
def largest_face (first : FaceRect) (rest : List FaceRect) : FaceRect :=
  rest.foldl (fun best f => if best.w * best.h < f.w * f.h then f else best) first

/-- `RealVideoAnalyzer._analyze_frame`, given the detector outputs: without a
face everything is false/none/0; otherwise the largest face is canonical,
its integer-division center and area are reported, and `has_eyes` requires at
least 2 eyes detected inside that face. -/
def analyze_frame (faces : List FaceRect) (eye_count : ℕ) : FrameData :=
  match faces with
  | [] => ⟨false, false, none, 0⟩
  | f :: fs =>
      let lf := largest_face f fs
      ⟨true, 2 ≤ eye_count, some (lf.x + lf.w / 2, lf.y + lf.h / 2), lf.w * lf.h⟩

/-- The counting/rate portion of `RealVideoAnalyzer.analyze_video_file`'s
result. -/
structure VideoAnalysis where
  frames_analyzed : ℕ
  frames_with_face : ℕ
  frames_with_eyes : ℕ
  face_detection_rate : ℚ
  eye_contact_percentage : ℚ
deriving Repr, DecidableEq

/-- The frame loop of `RealVideoAnalyzer.analyze_video_file` (lines 50-78),
applied to the per-sampled-frame results: `frames_analyzed` counts every
analyzed frame, `frames_with_face` the frames whose result has a face, and
`frames_with_eyes` is incremented only inside the has-face branch when the
frame also has eyes; the two rates divide by `frames_analyzed` when it is
positive and default to 0. -/
def analyze_video (frames : List FrameData) : VideoAnalysis :=
  let frames_analyzed := frames.length
  let frames_with_face := frames.countP (fun f => f.has_face)
  let frames_with_eyes := frames.countP (fun f => f.has_face && f.has_eyes)
  let face_detection_rate :=
    if 0 < frames_analyzed then (frames_with_face : ℚ) / (frames_analyzed : ℚ) * 100 else 0
  let eye_contact_percentage :=
    if 0 < frames_analyzed then (frames_with_eyes : ℚ) / (frames_analyzed : ℚ) * 100 else 0
  ⟨frames_analyzed, frames_with_face, frames_with_eyes, face_detection_rate,
    eye_contact_percentage⟩

/-! Theorems. -/

/-- C6: scoring an empty answer list returns (rather than raises) the
fully-zeroed result: overall score 0, every component score and weighted
contribution 0, and interpretation level "No Data". -/
theorem c6_empty_answer_list_gives_no_data :
    calculate_score [] = empty_score_result ∧
    (calculate_score []).overall_score = 0 ∧
    (calculate_score []).voice_stability = ⟨0, 40 / 100, 0⟩ ∧
    (calculate_score []).eye_contact = ⟨0, 25 / 100, 0⟩ ∧
    (calculate_score []).emotion_consistency = ⟨0, 20 / 100, 0⟩ ∧
    (calculate_score []).filler_word_frequency = ⟨0, 15 / 100, 0⟩ ∧
    (calculate_score []).score_interpretation.level = "No Data" :=
  ⟨rfl, rfl, rfl, rfl, rfl, rfl, rfl⟩

/-- C9: the Confidence Scoring Engine is deterministic and idempotent; its
embedding is a pure function of the response list (the source reads its
input, holds no mutable state across calls and uses no randomness), so two
invocations on the same answer list produce identical output. -/
theorem c9_scoring_deterministic (responses : List Response) :
    calculate_score responses = calculate_score responses := rfl

/-- C5: score interpretation is a pure function of the final score with
bands at 85/70/55/40, each band carrying its fixed description string and
displayed score range. -/
theorem c5_interpretation_bands (score : ℚ) :
    (85 ≤ score → interpret_score score =
      ⟨"Excellent", "Outstanding confidence and communication skills", "85-100"⟩) ∧
    (70 ≤ score → score < 85 → interpret_score score =
      ⟨"Good", "Strong confidence with minor areas for improvement", "70-84"⟩) ∧
    (55 ≤ score → score < 70 → interpret_score score =
      ⟨"Average", "Moderate confidence, several areas for development", "55-69"⟩) ∧
    (40 ≤ score → score < 55 → interpret_score score =
      ⟨"Below Average", "Low confidence, significant improvement needed", "40-54"⟩) ∧
    (score < 40 → interpret_score score =
      ⟨"Poor", "Very low confidence, major development required", "0-39"⟩) := by
  refine ⟨fun h1 => ?_, fun h1 h2 => ?_, fun h1 h2 => ?_, fun h1 h2 => ?_, fun h1 => ?_⟩ <;>
    · simp only [interpret_score, get_score_range]
      split_ifs <;> first | rfl | (exfalso; linarith)

/-- Witness for C5 at concrete scores in each band. -/
theorem c5_interpretation_bands_witness :
    interpret_score 90 =
      ⟨"Excellent", "Outstanding confidence and communication skills", "85-100"⟩ ∧
    interpret_score 72 =
      ⟨"Good", "Strong confidence with minor areas for improvement", "70-84"⟩ ∧
    interpret_score 30 =
      ⟨"Poor", "Very low confidence, major development required", "0-39"⟩ :=
  ⟨(c5_interpretation_bands 90).1 (by norm_num),
   (c5_interpretation_bands 72).2.1 (by norm_num) (by norm_num),
   (c5_interpretation_bands 30).2.2.2.2 (by norm_num)⟩

/-- The overall score of `calculate_score` is the weighted sum of its own
four component scores, on both the empty and the nonempty path. -/
theorem calculate_score_overall_eq (responses : List Response) :
    (calculate_score responses).overall_score =
      (calculate_score responses).voice_stability.score * weight_voice_stability +
      (calculate_score responses).eye_contact.score * weight_eye_contact +
      (calculate_score responses).emotion_consistency.score * weight_emotion_consistency +
      (calculate_score responses).filler_word_frequency.score * weight_filler_word_frequency := by
  unfold calculate_score
  split
  · simp [empty_score_result]
  · rfl

/-- C4: the engine's weight set (0.40, 0.25, 0.20, 0.15) sums to 1, and for
every answer list whose four per-component session scores lie in [0,100]
the weighted overall score lies in [0,100]. -/
theorem c4_weighted_overall_in_range (responses : List Response)
    (h1 : 0 ≤ (calculate_score responses).voice_stability.score)
    (h2 : (calculate_score responses).voice_stability.score ≤ 100)
    (h3 : 0 ≤ (calculate_score responses).eye_contact.score)
    (h4 : (calculate_score responses).eye_contact.score ≤ 100)
    (h5 : 0 ≤ (calculate_score responses).emotion_consistency.score)
    (h6 : (calculate_score responses).emotion_consistency.score ≤ 100)
    (h7 : 0 ≤ (calculate_score responses).filler_word_frequency.score)
    (h8 : (calculate_score responses).filler_word_frequency.score ≤ 100) :
    (weight_voice_stability + weight_eye_contact + weight_emotion_consistency +
      weight_filler_word_frequency = 1) ∧
    0 ≤ (calculate_score responses).overall_score ∧
    (calculate_score responses).overall_score ≤ 100 := by
  refine ⟨by norm_num [weight_voice_stability, weight_eye_contact,
    weight_emotion_consistency, weight_filler_word_frequency], ?_, ?_⟩ <;>
  · rw [calculate_score_overall_eq]
    unfold weight_voice_stability weight_eye_contact weight_emotion_consistency
      weight_filler_word_frequency
    linarith

/-- Witness for C4 on the empty answer list (all component scores 0). -/
theorem c4_weighted_overall_in_range_witness :
    0 ≤ (calculate_score []).overall_score ∧ (calculate_score []).overall_score ≤ 100 :=
  ⟨(c4_weighted_overall_in_range [] (by decide) (by decide) (by decide) (by decide)
      (by decide) (by decide) (by decide) (by decide)).2.1,
   (c4_weighted_overall_in_range [] (by decide) (by decide) (by decide) (by decide)
      (by decide) (by decide) (by decide) (by decide)).2.2⟩

/-- C1 counterexample: on a zero-word transcript the speech/filler score
computed by `main.py calculate_real_confidence_score` (one of the claim's
cited implementations) is 0, not the claimed 100; plugged into the full
function a single answer with an empty transcript yields a speech-quality
component of 0.  The scoring engine's own filler scorer does return 100
there, so the two cited implementations disagree at this input. -/
theorem c1_counterexample :
    real_speech_score ⟨0, [], 0⟩ = 0 ∧
    (calculate_real_confidence_score [⟨none, none, some ⟨0, [], 0⟩⟩]).component_scores =
      some ⟨⟨0, 40 / 100⟩, ⟨0, 35 / 100⟩, ⟨0, 25 / 100⟩⟩ ∧
    calculate_filler_word_score (some ⟨0, [], 0⟩) = 100 ∧
    (0 : ℚ) ≠ 100 := by
  refine ⟨rfl, ?_, rfl, by norm_num⟩
  have ht : real_speech_score ⟨0, [], 0⟩ = 0 := rfl
  norm_num [calculate_real_confidence_score, listMean, List.filterMap_cons,
    List.filterMap_nil, Option.map_some, ht]

/-- C1 amended: both implementations compute
`max(0, 100 - (filler_count/total_words * 100) * 5)` for a positive word
count (and score 60 for 100 words with 8 fillers), but on a zero-word list
the scoring engine's filler scorer returns 100 (absence of speech is not
penalized) while `main.py`'s speech score returns 0; a missing transcript
also scores 100 in the engine. -/
theorem c1_filler_score_formula (t : Transcript) :
    (0 < t.word_count →
      calculate_filler_word_score (some t) =
        max 0 (100 - ((t.filler_words.length : ℚ) / (t.word_count : ℚ) * 100) * 5) ∧
      real_speech_score t =
        max 0 (100 - ((t.filler_word_count : ℚ) / (t.word_count : ℚ) * 100) * 5)) ∧
    (t.word_count = 0 →
      calculate_filler_word_score (some t) = 100 ∧ real_speech_score t = 0) ∧
    calculate_filler_word_score none = 100 ∧
    calculate_filler_word_score (some ⟨100, List.replicate 8 "um", 8⟩) = 60 ∧
    real_speech_score ⟨100, List.replicate 8 "um", 8⟩ = 60 := by
  refine ⟨fun h => ⟨?_, ?_⟩, fun h => ⟨?_, ?_⟩, rfl, ?_, ?_⟩
  · simp [calculate_filler_word_score, h.ne']
  · simp [real_speech_score, h]
  · simp [calculate_filler_word_score, h]
  · simp [real_speech_score, h]
  · norm_num [calculate_filler_word_score]
  · norm_num [real_speech_score]

/-- Witness for C1 at the 100-word, 8-filler transcript of Scenario B. -/
theorem c1_filler_score_formula_witness :
    calculate_filler_word_score (some ⟨100, List.replicate 8 "um", 8⟩) =
      max 0 (100 - ((8 : ℚ) / (100 : ℚ) * 100) * 5) ∧
    real_speech_score ⟨100, List.replicate 8 "um", 8⟩ =
      max 0 (100 - ((8 : ℚ) / (100 : ℚ) * 100) * 5) := by
  have h := (c1_filler_score_formula ⟨100, List.replicate 8 "um", 8⟩).1 (by norm_num)
  simpa using h

/-- C2 counterexample: a reachable speech analysis (all frames voiced,
perfectly steady 100 Hz pitch, energy with coefficient of variation 1) gets
stability 50 from `RealAudioAnalyzer._analyze_speech_patterns` — the plain
average of pitch stability 100 and energy stability 0 — whereas the claimed
0.7/0.3 combination (the one `VoiceAnalyzer._calculate_stability_score`
uses) gives 70. -/
theorem c2_counterexample :
    (analyze_speech_patterns ⟨10, 10, 100, 0⟩ ⟨100, 0, 1, 1⟩).stability_score = 50 ∧
    va_calculate_stability_score (stability_of 100 0) (stability_of 1 1) = 70 ∧
    (50 : ℚ) ≠ 70 := by
  refine ⟨?_, ?_, by norm_num⟩
  · norm_num [analyze_speech_patterns, stability_of, min_def]
  · norm_num [va_calculate_stability_score, stability_of, min_def]

/-- C2 amended: each of pitch and energy stability is
`100 - min(100, std/mean * 100)` with a 0 result when the mean is 0 (this
formula is shared by both analyzers); the `VoiceAnalyzer` combines them as
`pitch*0.7 + energy*0.3`, while the `RealAudioAnalyzer` combines them as the
plain average `(pitch_stability + energy_stability) / 2`. -/
theorem c2_stability_formulas (mean std : ℚ) :
    ((mean = 0 → stability_of mean std = 0) ∧
     (0 < mean → stability_of mean std = 100 - min 100 (std / mean * 100))) ∧
    (∀ p e : ℚ, va_calculate_stability_score p e = p * (7 / 10) + e * (3 / 10)) ∧
    (∀ (va : VoiceActivityResult) (stats : SpeechFeatureStats),
      ¬ va.speech_percentage < 1 →
      (analyze_speech_patterns va stats).stability_score =
        (stability_of stats.pitch_mean stats.pitch_std +
         stability_of stats.energy_mean stats.energy_std) / 2) := by
  refine ⟨⟨fun h => ?_, fun h => ?_⟩, fun p e => rfl, fun va stats h => ?_⟩
  · simp [stability_of, h]
  · simp [stability_of, h]
  · unfold analyze_speech_patterns
    rw [if_neg h]

/-- Witness for C2 at concrete statistics (mean 4, std 2) and a fully voiced
activity result. -/
theorem c2_stability_formulas_witness :
    stability_of 4 2 = 100 - min 100 ((2 : ℚ) / 4 * 100) ∧
    (analyze_speech_patterns ⟨10, 10, 100, 0⟩ ⟨4, 2, 5, 1⟩).stability_score =
      (stability_of 4 2 + stability_of 5 1) / 2 :=
  ⟨(c2_stability_formulas 4 2).1.2 (by norm_num),
   (c2_stability_formulas 4 2).2.2 ⟨10, 10, 100, 0⟩ ⟨4, 2, 5, 1⟩ (by norm_num)⟩

/-- Spec-worded session aggregation for the voice component, for comparison
with the engine: the arithmetic mean of the per-answer voice score over only
those answers that produced a non-null voice modality. -/
def spec_voice_component_mean (responses : List Response) : ℚ :=
  listMean ((responses.filter (fun a => a.voice_metrics.isSome)).map
    (fun a => calculate_voice_stability_score a.voice_metrics))

/-- Spec-worded session aggregation for `main.py`'s voice component: the mean
of the raw stability score over only the answers with a voice modality. -/
def spec_real_voice_mean (responses : List Response) : ℚ :=
  listMean ((responses.filter (fun a => a.voice_metrics.isSome)).map
    (fun a => (a.voice_metrics.map VoiceMetrics.stability_score).getD 0))

/-- C3 counterexample: on two answers — one with voice stability 80, one with
no voice modality at all — the scoring engine's voice session score is 28
(the answer without voice contributes a 0 to the mean), not the 56 that the
claimed exclusion rule (mean over only voice-bearing answers) yields. -/
theorem c3_counterexample :
    (calculate_score [⟨some ⟨80, 0⟩, none, none⟩,
      ⟨none, none, none⟩]).voice_stability.score = 28 ∧
    spec_voice_component_mean [⟨some ⟨80, 0⟩, none, none⟩, ⟨none, none, none⟩] = 56 ∧
    (28 : ℚ) ≠ 56 := by
  refine ⟨?_, ?_, by norm_num⟩
  · norm_num [calculate_score, calculate_voice_stability_score, calculate_eye_contact_score,
      calculate_emotion_consistency_score, calculate_filler_word_score, listMean,
      min_def, max_def]
  · norm_num [spec_voice_component_mean, calculate_voice_stability_score, listMean,
      List.filter, min_def, max_def]

/-- `main.py`'s filterMap of raw stability scores coincides with mapping over
the voice-bearing answers only. -/
theorem filterMap_voice_eq (responses : List Response) :
    responses.filterMap (fun a => a.voice_metrics.map VoiceMetrics.stability_score) =
      (responses.filter (fun a => a.voice_metrics.isSome)).map
        (fun a => (a.voice_metrics.map VoiceMetrics.stability_score).getD 0) := by
  induction responses with
  | nil => rfl
  | cons r rs ih =>
      cases h : r.voice_metrics with
      | none => simp [List.filterMap_cons, List.filter_cons, h, ih]
      | some v => simp [List.filterMap_cons, List.filter_cons, h, ih]

/-- C3 amended: in the scoring engine every answer contributes to every
component's mean — an answer missing the voice or video modality contributes
0 and an answer missing the transcript contributes 100 to the filler mean —
while only `main.py`'s `calculate_real_confidence_score` excludes answers
missing a modality from that component's mean (shown here for the voice
component, against the spec-worded filtered mean). -/
theorem c3_session_aggregation (responses : List Response) (h : responses ≠ []) :
    ((calculate_score responses).voice_stability.score =
      listMean (responses.map (fun a => calculate_voice_stability_score a.voice_metrics))) ∧
    ((calculate_score responses).eye_contact.score =
      listMean (responses.map (fun a => calculate_eye_contact_score a.emotion_analysis))) ∧
    ((calculate_score responses).emotion_consistency.score =
      listMean (responses.map (fun a => calculate_emotion_consistency_score a.emotion_analysis))) ∧
    ((calculate_score responses).filler_word_frequency.score =
      listMean (responses.map (fun a => calculate_filler_word_score a.transcript))) ∧
    calculate_voice_stability_score none = 0 ∧
    calculate_filler_word_score none = 100 ∧
    (((calculate_real_confidence_score responses).component_scores.map
        (fun c => c.voice_stability.score)).getD 0 =
      (if (responses.filter (fun a => a.voice_metrics.isSome)).isEmpty then 0
       else spec_real_voice_mean responses)) := by
  obtain ⟨r, rs, rfl⟩ := List.exists_cons_of_ne_nil h
  refine ⟨rfl, rfl, rfl, rfl, rfl, rfl, ?_⟩
  show (if ((r :: rs).filterMap
      (fun a => a.voice_metrics.map VoiceMetrics.stability_score)).isEmpty then 0
    else listMean ((r :: rs).filterMap
      (fun a => a.voice_metrics.map VoiceMetrics.stability_score))) =
    (if ((r :: rs).filter (fun a => a.voice_metrics.isSome)).isEmpty then 0
     else spec_real_voice_mean (r :: rs))
  rw [filterMap_voice_eq]
  cases hf : (r :: rs).filter (fun a => a.voice_metrics.isSome) with
  | nil => simp [spec_real_voice_mean, hf]
  | cons a as => simp [spec_real_voice_mean, hf]

/-- Witness for C3 on a singleton answer list carrying a voice modality. -/
theorem c3_session_aggregation_witness :
    (calculate_score [⟨some ⟨80, 0⟩, none, none⟩]).voice_stability.score =
      listMean [calculate_voice_stability_score (some ⟨80, 0⟩)] ∧
    calculate_filler_word_score none = 100 := by
  have h := c3_session_aggregation [⟨some ⟨80, 0⟩, none, none⟩] (by simp)
  exact ⟨by simpa using h.1, h.2.2.2.2.2.1⟩

/-- C7: the voice-activity result always satisfies
`speech_percentage + silence_percentage = 100` exactly; when frames exist the
speech percentage is `speech_frames/total_frames * 100`, and zero frames give
the all-zero result with silence 100. -/
theorem c7_vad_partition (audio : List ℚ) :
    ((detect_voice_activity audio).speech_percentage +
      (detect_voice_activity audio).silence_percentage = 100) ∧
    (0 < (detect_voice_activity audio).total_frames →
      (detect_voice_activity audio).speech_percentage =
        ((detect_voice_activity audio).speech_frames : ℚ) /
          ((detect_voice_activity audio).total_frames : ℚ) * 100) ∧
    ((detect_voice_activity audio).total_frames = 0 →
      detect_voice_activity audio = ⟨0, 0, 0, 100⟩) := by
  unfold detect_voice_activity
  refine ⟨?_, fun h => ?_, fun h => ?_⟩
  · dsimp only
    ring
  · dsimp only at h ⊢
    rw [if_pos h]
  · dsimp only at h ⊢
    rw [h]
    norm_num [List.range_zero, List.countP_nil]

set_option maxRecDepth 4000 in
/-- Witness for C7: empty audio has zero frames and the all-zero result;
480 samples of amplitude 1 give one frame and the ratio formula. -/
theorem c7_vad_partition_witness :
    detect_voice_activity [] = ⟨0, 0, 0, 100⟩ ∧
    (detect_voice_activity (List.replicate 480 (1 : ℚ))).speech_percentage =
      ((detect_voice_activity (List.replicate 480 (1 : ℚ))).speech_frames : ℚ) /
        ((detect_voice_activity (List.replicate 480 (1 : ℚ))).total_frames : ℚ) * 100 :=
  ⟨(c7_vad_partition []).2.2 rfl,
   (c7_vad_partition (List.replicate 480 (1 : ℚ))).2.1 (by decide)⟩

/-- C8: whenever the voice-activity speech percentage is below the 1%
threshold the prosody result is all-zero, and for all-silent audio (every
frame's RMS at or below the energy threshold) the speech percentage is 0 and
hence the prosody result is all-zero. -/
theorem c8_low_speech_zero_prosody (audio : List ℚ) (stats : SpeechFeatureStats) :
    ((detect_voice_activity audio).speech_percentage < 1 →
      analyze_speech_patterns (detect_voice_activity audio) stats = zero_prosody) ∧
    (all_frames_silent audio = true →
      (detect_voice_activity audio).speech_percentage = 0 ∧
      analyze_speech_patterns (detect_voice_activity audio) stats = zero_prosody) := by
  have hlow : ∀ va : VoiceActivityResult, va.speech_percentage < 1 →
      analyze_speech_patterns va stats = zero_prosody := by
    intro va hva
    unfold analyze_speech_patterns
    rw [if_pos hva]
  refine ⟨hlow _, fun h => ?_⟩
  have hsf : (List.range ((pad_audio audio).length / frame_size)).countP
      (fun i => is_speech_frame (frame_at (pad_audio audio) i)) = 0 := by
    rw [List.countP_eq_zero]
    intro a ha
    have hb : is_speech_frame (frame_at (pad_audio audio) a) = false := by
      have h2 := List.all_eq_true.mp (by simpa only [all_frames_silent] using h) a ha
      simpa using h2
    simp [hb]
  have hsp : (detect_voice_activity audio).speech_percentage = 0 := by
    unfold detect_voice_activity
    dsimp only
    rw [hsf]
    split
    · norm_num
    · rfl
  exact ⟨hsp, hlow _ (by rw [hsp]; norm_num)⟩

set_option maxRecDepth 4000 in
/-- Witness for C8: one 480-sample frame of digital silence is all-silent and
yields speech percentage 0 and the all-zero prosody result; empty audio has
speech percentage 0 < 1 and also yields the all-zero prosody result. -/
theorem c8_low_speech_zero_prosody_witness :
    (detect_voice_activity (List.replicate 480 (0 : ℚ))).speech_percentage = 0 ∧
    analyze_speech_patterns (detect_voice_activity (List.replicate 480 (0 : ℚ)))
      ⟨1, 2, 3, 4⟩ = zero_prosody ∧
    analyze_speech_patterns (detect_voice_activity []) ⟨1, 2, 3, 4⟩ = zero_prosody := by
  have hpad : pad_audio (List.replicate 480 (0 : ℚ)) = List.replicate 480 (0 : ℚ) := by
    norm_num [pad_audio, frame_size, List.length_replicate]
  have hms : mean_square (List.replicate 480 (0 : ℚ)) = 0 := by
    simp [mean_square, List.map_replicate, List.sum_replicate]
  have hframe : frame_at (List.replicate 480 (0 : ℚ)) 0 = List.replicate 480 (0 : ℚ) := by
    simp [frame_at, frame_size, List.take_replicate]
  have hsf : is_speech_frame (List.replicate 480 (0 : ℚ)) = false := by
    simp only [is_speech_frame, hms]
    exact decide_eq_false (by norm_num)
  have hall : all_frames_silent (List.replicate 480 (0 : ℚ)) = true := by
    unfold all_frames_silent
    rw [hpad]
    simp only [List.length_replicate]
    norm_num [frame_size, List.range_succ, List.range_zero, hframe, hsf]
  have hsilent := (c8_low_speech_zero_prosody (List.replicate 480 (0 : ℚ)) ⟨1, 2, 3, 4⟩).2 hall
  have hempty := (c8_low_speech_zero_prosody [] ⟨1, 2, 3, 4⟩).1 (by
    norm_num [detect_voice_activity, pad_audio, frame_size, List.range_zero, List.countP_nil])
  exact ⟨hsilent.1, hsilent.2, hempty⟩

/-- C10: in the video analyzer's session loop, eyes are counted only in
frames whose result has a face, so
`frames_with_eyes ≤ frames_with_face ≤ frames_analyzed`,
`eye_contact_percentage ≤ face_detection_rate`, both rates lie in [0,100],
and the per-frame analyzer never reports eyes without a face. -/
theorem c10_video_counts (frames : List FrameData) :
    (analyze_video frames).frames_with_eyes ≤ (analyze_video frames).frames_with_face ∧
    (analyze_video frames).frames_with_face ≤ (analyze_video frames).frames_analyzed ∧
    (analyze_video frames).eye_contact_percentage ≤ (analyze_video frames).face_detection_rate ∧
    0 ≤ (analyze_video frames).face_detection_rate ∧
    (analyze_video frames).face_detection_rate ≤ 100 ∧
    0 ≤ (analyze_video frames).eye_contact_percentage ∧
    (analyze_video frames).eye_contact_percentage ≤ 100 ∧
    (∀ (faces : List FaceRect) (eye_count : ℕ),
      (analyze_frame faces eye_count).has_eyes = true →
      (analyze_frame faces eye_count).has_face = true) := by
  have hef : frames.countP (fun f => f.has_face && f.has_eyes) ≤
      frames.countP (fun f => f.has_face) :=
    List.countP_mono_left (fun x _ hx => by
      simp only [Bool.and_eq_true] at hx
      exact hx.1)
  have hfl : frames.countP (fun f => f.has_face) ≤ frames.length :=
    List.countP_le_length (fun (f : FrameData) => f.has_face)
  have hframe : ∀ (faces : List FaceRect) (eye_count : ℕ),
      (analyze_frame faces eye_count).has_eyes = true →
      (analyze_frame faces eye_count).has_face = true := by
    intro faces ec h
    cases faces with
    | nil => simp [analyze_frame] at h
    | cons f fs => rfl
  unfold analyze_video
  dsimp only
  by_cases hl : 0 < frames.length
  · simp only [if_pos hl]
    have hL : (0 : ℚ) < (frames.length : ℚ) := by exact_mod_cast hl
    have hefq : ((frames.countP (fun f => f.has_face && f.has_eyes) : ℕ) : ℚ) ≤
        ((frames.countP (fun f => f.has_face) : ℕ) : ℚ) := by exact_mod_cast hef
    have hflq : ((frames.countP (fun f => f.has_face) : ℕ) : ℚ) ≤ (frames.length : ℚ) := by
      exact_mod_cast hfl
    refine ⟨hef, hfl, ?_, ?_, ?_, ?_, ?_, hframe⟩
    · gcongr
    · positivity
    · rw [div_mul_eq_mul_div, div_le_iff₀ hL]
      linarith
    · positivity
    · rw [div_mul_eq_mul_div, div_le_iff₀ hL]
      have : ((frames.countP (fun f => f.has_face && f.has_eyes) : ℕ) : ℚ) ≤
          (frames.length : ℚ) := le_trans hefq hflq
      linarith
  · simp only [if_neg hl]
    exact ⟨hef, hfl, le_refl 0, le_refl 0, by norm_num, le_refl 0, by norm_num, hframe⟩

/-- Witness for C10 on a concrete two-frame session and a concrete detected
face with two eyes. -/
theorem c10_video_counts_witness :
    (analyze_video [⟨true, true, some (1, 1), 4⟩, ⟨false, false, none, 0⟩]).frames_with_eyes ≤
      (analyze_video [⟨true, true, some (1, 1), 4⟩,
        ⟨false, false, none, 0⟩]).frames_with_face ∧
    (analyze_video [⟨true, true, some (1, 1), 4⟩,
        ⟨false, false, none, 0⟩]).eye_contact_percentage ≤
      (analyze_video [⟨true, true, some (1, 1), 4⟩,
        ⟨false, false, none, 0⟩]).face_detection_rate ∧
    (analyze_frame [⟨0, 0, 2, 2⟩] 2).has_face = true :=
  ⟨(c10_video_counts _).1, (c10_video_counts _).2.2.1,
   (c10_video_counts []).2.2.2.2.2.2.2 [⟨0, 0, 2, 2⟩] 2 rfl⟩

end IntervueAi
